import Mathlib

/-!
Shallow embedding of the brightness-control core of the amilo_pa2548
backlight driver (src/amilo_pa2548.c) and proofs of its specified
properties.  Hardware outcomes (ACPI firmware calls, raw port I/O) are
passed in as explicit parameters; indeterminate (uninitialized) C locals
are passed in as explicit `garbage` parameters.
-/

namespace Amilo

/-- Fields of `struct options_t` that the core logic reads (the model
profile: inclusive brightness range).  The ACPI method path strings are
opaque to the logic and are not modelled. -/
structure Options where
  max_blevel : Int
  min_blevel : Int
deriving DecidableEq

/-- Brightness-relevant fields of the global `struct amilo_pa2548_t`
object `this_laptop`: the selected profile and the cached level. -/
structure Laptop where
  options : Options
  current_blevel : Int
deriving DecidableEq

/-- The profile `model_options[MODEL_AMILO_PA_2548]` selected by the DMI
callback for the observed machine. -/
def amilo_options : Options := { max_blevel := 7, min_blevel := 0 }

/-- Linux `EINVAL` errno value. -/
def EINVAL : Int := 22

/-- ACPI status `AE_OK`. -/
def AE_OK : Int := 0

/-- ACPI status `AE_ERROR` (`EXCEP_ENV(0x0001)` = 1). -/
def AE_ERROR : Int := 1

/-- Linux input keycode `KEY_BRIGHTNESSDOWN`. -/
def KEY_BRIGHTNESSDOWN : Nat := 224

/-- Linux input keycode `KEY_BRIGHTNESSUP`. -/
def KEY_BRIGHTNESSUP : Nat := 225

/-- ACPI video event code for brightness increment. -/
def ACPI_VIDEO_NOTIFY_INC_BRIGHTNESS : Nat := 0x86

/-- ACPI video event code for brightness decrement. -/
def ACPI_VIDEO_NOTIFY_DEC_BRIGHTNESS : Nat := 0x87

/-- Embedding of `lcd_set_blevel`: reject a level outside the profile
range with `-EINVAL` before touching state, otherwise commit
`current_blevel = level` and evaluate the BCM firmware method; `acpiOk`
is the success of `acpi_evaluate_object`, and the returned int is
`ACPI_FAILURE(status)` (0 on success, 1 on firmware failure). -/
def lcd_set_blevel (s : Laptop) (acpiOk : Bool) (level : Int) : Laptop × Int :=
  if level < s.options.min_blevel ∨ level > s.options.max_blevel then
    (s, -EINVAL)
  else
    ({ s with current_blevel := level }, if acpiOk then 0 else 1)

/-- Hardware outcome of the raw I/O pair inside `lcd_get_blevel`: the
return statuses of `acpi_os_write_port` and `acpi_os_read_port` (negative
means failure) and the byte the read deposits when it succeeds. -/
structure HwRead where
  writeStatus : Int
  readStatus : Int
  data : Int
deriving DecidableEq

/-- Everything `lcd_get_blevel` leaves behind: the global state, the
returned ACPI status, the value last stored through the out-pointer
(`none` when nothing was stored, i.e. the NULL-pointer path), and the
number of port I/O calls issued. -/
structure GetResult where
  state : Laptop
  ret : Int
  written : Option Int
  ports : Nat
deriving DecidableEq

/-- Embedding of `lcd_get_blevel`: reject a NULL out-pointer first, store
the cached level through the pointer, then write the register-select byte,
read the data byte, range-check it, and on success overwrite both the
pointer target and `current_blevel` with the hardware-reported value. -/
def lcd_get_blevel (s : Laptop) (hw : HwRead) (levelNull : Bool) : GetResult :=
  if levelNull then
    ⟨s, AE_ERROR, none, 0⟩
  else if hw.writeStatus < 0 then
    ⟨s, AE_ERROR, some s.current_blevel, 1⟩
  else if hw.readStatus < 0 then
    ⟨s, AE_ERROR, some s.current_blevel, 2⟩
  else if s.options.min_blevel > hw.data ∨ hw.data > s.options.max_blevel then
    ⟨s, AE_ERROR, some s.current_blevel, 2⟩
  else
    ⟨{ s with current_blevel := hw.data }, AE_OK, some hw.data, 2⟩

/-- Embedding of `this_laptop_init` (the pointer/`input_phys` resets are
not brightness-relevant): preset `current_blevel = max_blevel`, attempt a
reconcile; since `lcd_get_blevel` returns nonzero exactly on failure, the
`if (lcd_get_blevel(&level))` body runs on failure and copies back the
cached value the reconcile left in `level`.  `garbage` is the
indeterminate initial value of the local `level` variable. -/
def this_laptop_init (opts : Options) (hw : HwRead) (garbage : Int) : Laptop :=
  let s : Laptop := { options := opts, current_blevel := opts.max_blevel }
  let r := lcd_get_blevel s hw false
  let level := r.written.getD garbage
  if r.ret ≠ 0 then { r.state with current_blevel := level } else r.state

/-- Character class `isspace` of the kernel ctype table (the characters
skipped by `vsscanf` before a conversion). -/
def isSpaceChar (c : Char) : Bool :=
  c = ' ' || c = '\t' || c = '\n' || c = '\x0b' || c = '\x0c' || c = '\x0d'

/-- Character class `isdigit`. -/
def isDigitChar (c : Char) : Bool :=
  decide ('0' ≤ c) && decide (c ≤ '9')

/-- Character class `isxdigit`. -/
def isXDigitChar (c : Char) : Bool :=
  isDigitChar c || (decide ('a' ≤ c) && decide (c ≤ 'f')) ||
    (decide ('A' ≤ c) && decide (c ≤ 'F'))

/-- Numeric value of a hex digit, as computed in `simple_strtoul`. -/
def xdigitVal (c : Char) : Nat :=
  if isDigitChar c then c.toNat - '0'.toNat
  else if decide ('a' ≤ c) && decide (c ≤ 'f') then c.toNat - 'a'.toNat + 10
  else c.toNat - 'A'.toNat + 10

/-- Drop leading whitespace, as `vsscanf` does before a conversion. -/
def skipSpaces : List Char → List Char
  | [] => []
  | c :: cs => if isSpaceChar c then skipSpaces cs else c :: cs

/-- Digit-accumulation loop of the kernel `simple_strtoul`: consume hex
digits whose value is below the base. -/
def strtoulLoop (base : Nat) : List Char → Nat → Nat
  | [], acc => acc
  | c :: cs, acc =>
    if isXDigitChar c && decide (xdigitVal c < base) then
      strtoulLoop base cs (acc * base + xdigitVal c)
    else acc

/-- Kernel `simple_strtoul` with base 0: `simple_guess_base` picks 16 for
a `0x` prefix followed by a hex digit, 8 for any other leading `0`, else
10; a base-16 conversion then skips the `0x` prefix. -/
def simple_strtoul (cs : List Char) : Nat :=
  match cs with
  | '0' :: c1 :: c2 :: rest =>
    if (c1 = 'x' || c1 = 'X') && isXDigitChar c2 then
      strtoulLoop 16 (c2 :: rest) 0
    else
      strtoulLoop 8 ('0' :: c1 :: c2 :: rest) 0
  | '0' :: rest => strtoulLoop 8 ('0' :: rest) 0
  | _ => strtoulLoop 10 cs 0

/-- Kernel `vsscanf` behaviour for a single `%i` conversion: skip leading
whitespace, require a decimal digit (possibly after a minus sign), then
convert with `simple_strtol` in base 0.  Returns `none` exactly when the
conversion does not match; kernel `sscanf` then returns 0 (the number of
matched items — it never returns a negative value) and leaves the output
variable untouched. -/
def sscanf_i (buf : String) : Option Int :=
  match skipSpaces buf.toList with
  | [] => none
  | '-' :: rest =>
    match rest with
    | [] => none
    | d :: _ =>
      if isDigitChar d then some (-(Int.ofNat (simple_strtoul rest))) else none
  | d :: rest =>
    if isDigitChar d then some (Int.ofNat (simple_strtoul (d :: rest))) else none

/-- Number of matched items `sscanf(buf, "%i", &level)` reports: 1 when
the conversion matches, 0 when it does not (never negative). -/
def sscanf_status (buf : String) : Int :=
  match sscanf_i buf with
  | some _ => 1
  | none => 0

/-- Embedding of `pf_store_lcd_level`: parse a leading `%i` integer, fall
back to the cached level only when sscanf reported a negative status
(which kernel sscanf never does), call `lcd_set_blevel`, and return its
status only when negative, else the byte count.  `garbage` is the
indeterminate initial value of the local `level` variable, read whenever
the conversion does not match. -/
def pf_store_lcd_level (s : Laptop) (acpiOk : Bool) (buf : String)
    (count : Int) (garbage : Int) : Laptop × Int :=
  let level : Int :=
    if sscanf_status buf < 0 then s.current_blevel
    else (sscanf_i buf).getD garbage
  let p := lcd_set_blevel s acpiOk level
  if p.2 < 0 then p else (p.1, count)

/-- Embedding of `acpi_driver_notify`: reconcile via `lcd_get_blevel`
(its status is ignored), dispatch on the ACPI event code, call
`lcd_set_blevel` with the decremented/incremented level (its status is
ignored), and emit the synthesized `input_report_key` pairs
(keycode, pressed) — a pair exactly when the keycode is nonzero.  The
ACPI proc event and the log lines are not modelled.  `garbage` is the
indeterminate initial value of the local `level` variable (never read,
since the out-pointer is non-NULL). -/
def acpi_driver_notify (s : Laptop) (hw : HwRead) (acpiOk : Bool)
    (garbage : Int) (event : Nat) : Laptop × List (Nat × Bool) :=
  let r := lcd_get_blevel s hw false
  let level := r.written.getD garbage
  if event = ACPI_VIDEO_NOTIFY_DEC_BRIGHTNESS then
    ((lcd_set_blevel r.state acpiOk (level - 1)).1,
      [(KEY_BRIGHTNESSDOWN, true), (KEY_BRIGHTNESSDOWN, false)])
  else if event = ACPI_VIDEO_NOTIFY_INC_BRIGHTNESS then
    ((lcd_set_blevel r.state acpiOk (level + 1)).1,
      [(KEY_BRIGHTNESSUP, true), (KEY_BRIGHTNESSUP, false)])
  else
    (r.state, [])

/-- One externally triggered operation on the driver state: a backlight
set, a reconcile/read, a hotkey notification, or a text-surface write. -/
inductive Op where
  | set (acpiOk : Bool) (level : Int)
  | get (hw : HwRead) (levelNull : Bool)
  | notify (hw : HwRead) (acpiOk : Bool) (garbage : Int) (event : Nat)
  | store (acpiOk : Bool) (buf : String) (count : Int) (garbage : Int)

/-- State transition of one operation. -/
def step (s : Laptop) : Op → Laptop
  | Op.set ok l => (lcd_set_blevel s ok l).1
  | Op.get hw n => (lcd_get_blevel s hw n).state
  | Op.notify hw ok g e => (acpi_driver_notify s hw ok g e).1
  | Op.store ok buf c g => (pf_store_lcd_level s ok buf c g).1

/-- Run a sequence of operations. -/
def run (s : Laptop) (ops : List Op) : Laptop := ops.foldl step s

/-- The range invariant on the cached level. -/
def Inv (s : Laptop) : Prop :=
  s.options.min_blevel ≤ s.current_blevel ∧
    s.current_blevel ≤ s.options.max_blevel

/-! ## Helper lemmas -/

theorem set_oob_eq (s : Laptop) (ok : Bool) (l : Int)
    (h : l < s.options.min_blevel ∨ l > s.options.max_blevel) :
    lcd_set_blevel s ok l = (s, -EINVAL) := by
  unfold lcd_set_blevel
  rw [if_pos h]

theorem set_ok_eq (s : Laptop) (ok : Bool) (l : Int)
    (h1 : s.options.min_blevel ≤ l) (h2 : l ≤ s.options.max_blevel) :
    lcd_set_blevel s ok l =
      ({ s with current_blevel := l }, if ok then 0 else 1) := by
  unfold lcd_set_blevel
  rw [if_neg (by omega)]

theorem set_preserves_inv (s : Laptop) (ok : Bool) (l : Int) (h : Inv s) :
    Inv (lcd_set_blevel s ok l).1 := by
  unfold lcd_set_blevel
  split_ifs with hc h2
  · exact h
  · unfold Inv at *
    constructor <;> simp <;> omega
  · unfold Inv at *
    constructor <;> simp <;> omega

theorem set_options_eq (s : Laptop) (ok : Bool) (l : Int) :
    (lcd_set_blevel s ok l).1.options = s.options := by
  unfold lcd_set_blevel
  split_ifs <;> rfl

theorem get_preserves_inv (s : Laptop) (hw : HwRead) (n : Bool) (h : Inv s) :
    Inv (lcd_get_blevel s hw n).state := by
  unfold lcd_get_blevel
  split_ifs with h0 h1 h2 h3
  · exact h
  · exact h
  · exact h
  · exact h
  · unfold Inv at *
    constructor <;> simp <;> omega

theorem get_options_eq (s : Laptop) (hw : HwRead) (n : Bool) :
    (lcd_get_blevel s hw n).state.options = s.options := by
  unfold lcd_get_blevel
  split_ifs <;> rfl

theorem get_written_current (s : Laptop) (hw : HwRead) (v : Int)
    (h : (lcd_get_blevel s hw false).written = some v) :
    (lcd_get_blevel s hw false).state.current_blevel = v := by
  unfold lcd_get_blevel at *
  split_ifs at h ⊢ <;> simp_all

theorem notify_preserves_inv (s : Laptop) (hw : HwRead) (ok : Bool)
    (g : Int) (e : Nat) (h : Inv s) :
    Inv (acpi_driver_notify s hw ok g e).1 := by
  unfold acpi_driver_notify
  split_ifs <;>
    first
      | exact set_preserves_inv _ _ _ (get_preserves_inv s hw false h)
      | exact get_preserves_inv s hw false h

theorem store_preserves_inv (s : Laptop) (ok : Bool) (buf : String)
    (c g : Int) (h : Inv s) :
    Inv (pf_store_lcd_level s ok buf c g).1 := by
  unfold pf_store_lcd_level
  dsimp only
  split_ifs <;> exact set_preserves_inv _ _ _ h

theorem step_preserves_inv (s : Laptop) (op : Op) (h : Inv s) :
    Inv (step s op) := by
  cases op with
  | set ok l => exact set_preserves_inv s ok l h
  | get hw n => exact get_preserves_inv s hw n h
  | notify hw ok g e => exact notify_preserves_inv s hw ok g e h
  | store ok buf c g => exact store_preserves_inv s ok buf c g h

theorem run_preserves_inv (s : Laptop) (ops : List Op) (h : Inv s) :
    Inv (run s ops) := by
  induction ops generalizing s with
  | nil => exact h
  | cons op ops ih => exact ih (step s op) (step_preserves_inv s op h)

theorem init_establishes_inv (opts : Options) (hw : HwRead) (g : Int)
    (h : opts.min_blevel ≤ opts.max_blevel) :
    Inv (this_laptop_init opts hw g) := by
  by_cases hws : hw.writeStatus < 0
  · simp [this_laptop_init, lcd_get_blevel, Inv, AE_ERROR, AE_OK, hws]
    omega
  by_cases hrs : hw.readStatus < 0
  · simp [this_laptop_init, lcd_get_blevel, Inv, AE_ERROR, AE_OK, hws, hrs]
    omega
  by_cases hd : opts.min_blevel > hw.data ∨ hw.data > opts.max_blevel
  · simp [this_laptop_init, lcd_get_blevel, Inv, AE_ERROR, AE_OK, hws, hrs, hd]
    omega
  · simp [this_laptop_init, lcd_get_blevel, Inv, AE_ERROR, AE_OK, hws, hrs, hd]
    omega

theorem notify_inc_saturates (s : Laptop) (hw : HwRead) (ok : Bool) (g : Int)
    (h : (lcd_get_blevel s hw false).written = some s.options.max_blevel) :
    acpi_driver_notify s hw ok g ACPI_VIDEO_NOTIFY_INC_BRIGHTNESS =
      ((lcd_get_blevel s hw false).state,
        [(KEY_BRIGHTNESSUP, true), (KEY_BRIGHTNESSUP, false)]) := by
  unfold acpi_driver_notify
  dsimp only
  rw [if_neg (by decide), if_pos rfl, h, Option.getD_some, set_oob_eq]
  right
  rw [get_options_eq]
  omega

theorem notify_dec_saturates (s : Laptop) (hw : HwRead) (ok : Bool) (g : Int)
    (h : (lcd_get_blevel s hw false).written = some s.options.min_blevel) :
    acpi_driver_notify s hw ok g ACPI_VIDEO_NOTIFY_DEC_BRIGHTNESS =
      ((lcd_get_blevel s hw false).state,
        [(KEY_BRIGHTNESSDOWN, true), (KEY_BRIGHTNESSDOWN, false)]) := by
  unfold acpi_driver_notify
  dsimp only
  rw [if_pos rfl, h, Option.getD_some, set_oob_eq]
  left
  rw [get_options_eq]
  omega

/-! ## Claim theorems -/

/-- C1: after initialization with a profile whose bounds are ordered,
every sequence of backlight sets, reconciling reads, hotkey
notifications and text-surface writes keeps the cached `current_blevel`
inside `[min_blevel, max_blevel]`; with the observed profile
`amilo_options` this is `0 ≤ current_blevel ≤ 7`.  The only states ever
held in `current_blevel` mid-operation are the pre- and post-states
covered here, since each operation commits only validated values. -/
theorem range_invariant (opts : Options) (hw : HwRead) (g : Int)
    (ops : List Op) (h : opts.min_blevel ≤ opts.max_blevel) :
    Inv (run (this_laptop_init opts hw g) ops) :=
  run_preserves_inv _ ops (init_establishes_inv opts hw g h)

/-- Witness for C1 at the observed profile, a failed initial reconcile
and a short operation sequence. -/
theorem range_invariant_witness :
    amilo_options.min_blevel ≤ amilo_options.max_blevel ∧
      Inv (run (this_laptop_init amilo_options ⟨-1, 0, 0⟩ 0)
        [Op.set true 3, Op.notify ⟨0, 0, 5⟩ true 0 0x86]) :=
  ⟨by decide, range_invariant amilo_options ⟨-1, 0, 0⟩ 0
    [Op.set true 3, Op.notify ⟨0, 0, 5⟩ true 0 0x86] (by decide)⟩

/-- C2: a requested level outside the profile range is rejected with
`-EINVAL` and the whole state — in particular the cached
`current_blevel` — is unchanged (validate-before-mutate). -/
theorem set_out_of_range_rejected (s : Laptop) (ok : Bool) (l : Int)
    (h : l < s.options.min_blevel ∨ l > s.options.max_blevel) :
    lcd_set_blevel s ok l = (s, -EINVAL) :=
  set_oob_eq s ok l h

/-- Witness for C2 at level 10 against the 0..7 profile. -/
theorem set_out_of_range_rejected_witness :
    ((10 : Int) < amilo_options.min_blevel ∨
        (10 : Int) > amilo_options.max_blevel) ∧
      lcd_set_blevel ⟨amilo_options, 7⟩ true 10 =
        (⟨amilo_options, 7⟩, -EINVAL) :=
  ⟨by decide, set_out_of_range_rejected ⟨amilo_options, 7⟩ true 10 (by decide)⟩

/-- C3: an in-range level is committed to `current_blevel` before the
firmware call, and the return value is 0 on firmware success and the
nonzero `ACPI_FAILURE` indicator 1 on firmware failure — in which case
the already-committed `current_blevel = level` is not rolled back. -/
theorem set_in_range_commits (s : Laptop) (ok : Bool) (l : Int)
    (h1 : s.options.min_blevel ≤ l) (h2 : l ≤ s.options.max_blevel) :
    lcd_set_blevel s ok l =
      ({ s with current_blevel := l }, if ok then 0 else 1) :=
  set_ok_eq s ok l h1 h2

/-- Witness for C3 at level 3 with the firmware call failing: the cache
moves to 3 and stays there while failure is reported. -/
theorem set_in_range_commits_witness :
    amilo_options.min_blevel ≤ (3 : Int) ∧ (3 : Int) ≤ amilo_options.max_blevel ∧
      lcd_set_blevel ⟨amilo_options, 7⟩ false 3 = (⟨amilo_options, 3⟩, 1) :=
  ⟨by decide, by decide,
    set_in_range_commits ⟨amilo_options, 7⟩ false 3 (by decide) (by decide)⟩

/-- C4: a fully successful reconcile (both port operations succeed and
the byte is in range) overwrites `current_blevel` with the
hardware-reported byte — regardless of the previous cached value —
stores it through the out-pointer, and returns `AE_OK`, so a subsequent
read of the cache yields that byte. -/
theorem reconcile_success_overwrites (s : Laptop) (hw : HwRead)
    (hws : 0 ≤ hw.writeStatus) (hrs : 0 ≤ hw.readStatus)
    (h1 : s.options.min_blevel ≤ hw.data)
    (h2 : hw.data ≤ s.options.max_blevel) :
    lcd_get_blevel s hw false =
      ⟨{ s with current_blevel := hw.data }, AE_OK, some hw.data, 2⟩ := by
  unfold lcd_get_blevel
  rw [if_neg (by simp), if_neg (by omega), if_neg (by omega),
    if_neg (by omega)]

/-- Witness for C4: cached 2, hardware reports 5, cache becomes 5. -/
theorem reconcile_success_overwrites_witness :
    ((0 : Int) ≤ 0 ∧ amilo_options.min_blevel ≤ (5 : Int) ∧
        (5 : Int) ≤ amilo_options.max_blevel) ∧
      lcd_get_blevel ⟨amilo_options, 2⟩ ⟨0, 0, 5⟩ false =
        ⟨⟨amilo_options, 5⟩, AE_OK, some 5, 2⟩ :=
  ⟨by decide, reconcile_success_overwrites ⟨amilo_options, 2⟩ ⟨0, 0, 5⟩
    (by decide) (by decide) (by decide) (by decide)⟩

/-- C5: whenever the port write fails, the port read fails, or the
hardware-reported byte is outside the profile range, the reconcile
returns `AE_ERROR` and leaves the state — in particular the cached
`current_blevel` — unchanged. -/
theorem reconcile_failure_preserves (s : Laptop) (hw : HwRead)
    (h : hw.writeStatus < 0 ∨ hw.readStatus < 0 ∨
      hw.data < s.options.min_blevel ∨ hw.data > s.options.max_blevel) :
    (lcd_get_blevel s hw false).state = s ∧
      (lcd_get_blevel s hw false).ret = AE_ERROR := by
  unfold lcd_get_blevel
  split_ifs <;>
    first
      | (exact ⟨rfl, rfl⟩)
      | simp_all

/-- Witness for C5: a failing port write with cached level 4. -/
theorem reconcile_failure_preserves_witness :
    ((-1 : Int) < 0 ∨ (0 : Int) < 0 ∨ (9 : Int) < amilo_options.min_blevel ∨
        (9 : Int) > amilo_options.max_blevel) ∧
      (lcd_get_blevel ⟨amilo_options, 4⟩ ⟨-1, 0, 9⟩ false).state =
          ⟨amilo_options, 4⟩ ∧
        (lcd_get_blevel ⟨amilo_options, 4⟩ ⟨-1, 0, 9⟩ false).ret = AE_ERROR :=
  ⟨by decide, reconcile_failure_preserves ⟨amilo_options, 4⟩ ⟨-1, 0, 9⟩
    (by decide)⟩

/-- C6: initialization is a total function (it never fails), keeps the
selected profile, and leaves `current_blevel` at the hardware-reported
value when the reconcile read fully succeeds, and at the profile's
`max_blevel` when any part of the read fails. -/
theorem init_level (opts : Options) (hw : HwRead) (g : Int) :
    (this_laptop_init opts hw g).options = opts ∧
      (this_laptop_init opts hw g).current_blevel =
        (if 0 ≤ hw.writeStatus ∧ 0 ≤ hw.readStatus ∧
            opts.min_blevel ≤ hw.data ∧ hw.data ≤ opts.max_blevel
          then hw.data else opts.max_blevel) := by
  by_cases hws : hw.writeStatus < 0
  · have hn : ¬ (0 ≤ hw.writeStatus ∧ 0 ≤ hw.readStatus ∧
        opts.min_blevel ≤ hw.data ∧ hw.data ≤ opts.max_blevel) := by omega
    simp [this_laptop_init, lcd_get_blevel, AE_ERROR, AE_OK, hws, hn]
  by_cases hrs : hw.readStatus < 0
  · have hn : ¬ (0 ≤ hw.writeStatus ∧ 0 ≤ hw.readStatus ∧
        opts.min_blevel ≤ hw.data ∧ hw.data ≤ opts.max_blevel) := by omega
    simp [this_laptop_init, lcd_get_blevel, AE_ERROR, AE_OK, hws, hrs, hn]
  by_cases hd : opts.min_blevel > hw.data ∨ hw.data > opts.max_blevel
  · have hn : ¬ (0 ≤ hw.writeStatus ∧ 0 ≤ hw.readStatus ∧
        opts.min_blevel ≤ hw.data ∧ hw.data ≤ opts.max_blevel) := by omega
    simp [this_laptop_init, lcd_get_blevel, AE_ERROR, AE_OK, hws, hrs, hd, hn]
  · have hy : 0 ≤ hw.writeStatus ∧ 0 ≤ hw.readStatus ∧
        opts.min_blevel ≤ hw.data ∧ hw.data ≤ opts.max_blevel := by omega
    simp [this_laptop_init, lcd_get_blevel, AE_ERROR, AE_OK, hws, hrs, hd, hy]

/-- C7: an Increment hotkey arriving while the level the reconcile left
behind equals `max_blevel` saturates there — the out-of-range `set` is
rejected and its error ignored — and still emits exactly one key-down
followed by one key-up for `KEY_BRIGHTNESSUP`; a Decrement at
`min_blevel` saturates symmetrically with one down/up pair for
`KEY_BRIGHTNESSDOWN`; never a bare key-down. -/
theorem hotkey_saturation :
    (∀ (s : Laptop) (hw : HwRead) (ok : Bool) (g : Int),
      (lcd_get_blevel s hw false).written = some s.options.max_blevel →
      (acpi_driver_notify s hw ok g
          ACPI_VIDEO_NOTIFY_INC_BRIGHTNESS).1.current_blevel =
          s.options.max_blevel ∧
        (acpi_driver_notify s hw ok g ACPI_VIDEO_NOTIFY_INC_BRIGHTNESS).2 =
          [(KEY_BRIGHTNESSUP, true), (KEY_BRIGHTNESSUP, false)]) ∧
    (∀ (s : Laptop) (hw : HwRead) (ok : Bool) (g : Int),
      (lcd_get_blevel s hw false).written = some s.options.min_blevel →
      (acpi_driver_notify s hw ok g
          ACPI_VIDEO_NOTIFY_DEC_BRIGHTNESS).1.current_blevel =
          s.options.min_blevel ∧
        (acpi_driver_notify s hw ok g ACPI_VIDEO_NOTIFY_DEC_BRIGHTNESS).2 =
          [(KEY_BRIGHTNESSDOWN, true), (KEY_BRIGHTNESSDOWN, false)]) := by
  constructor
  · intro s hw ok g h
    rw [notify_inc_saturates s hw ok g h]
    exact ⟨get_written_current s hw _ h, rfl⟩
  · intro s hw ok g h
    rw [notify_dec_saturates s hw ok g h]
    exact ⟨get_written_current s hw _ h, rfl⟩

/-- Witness for C7: cached 7 (= max), reconcile fails, Increment event:
level stays 7 and one down/up pair for `KEY_BRIGHTNESSUP` is emitted. -/
theorem hotkey_saturation_witness :
    (lcd_get_blevel ⟨amilo_options, 7⟩ ⟨-1, 0, 0⟩ false).written =
        some (⟨amilo_options, 7⟩ : Laptop).options.max_blevel ∧
      (acpi_driver_notify ⟨amilo_options, 7⟩ ⟨-1, 0, 0⟩ true 0
          ACPI_VIDEO_NOTIFY_INC_BRIGHTNESS).1.current_blevel = 7 ∧
        (acpi_driver_notify ⟨amilo_options, 7⟩ ⟨-1, 0, 0⟩ true 0
            ACPI_VIDEO_NOTIFY_INC_BRIGHTNESS).2 =
          [(KEY_BRIGHTNESSUP, true), (KEY_BRIGHTNESSUP, false)] :=
  ⟨by decide, hotkey_saturation.1 ⟨amilo_options, 7⟩ ⟨-1, 0, 0⟩ true 0
    (by decide)⟩

/-- C8 counterexample: with cached level 3 and the hardware read
succeeding with byte 5, handling the unrecognized event code 0x99 still
changes `current_blevel` (to 5): the dispatcher reconciles
unconditionally before looking at the event, so an Unknown event is not
free of state mutation. -/
theorem unknown_event_counterexample :
    (acpi_driver_notify ⟨amilo_options, 3⟩ ⟨0, 0, 5⟩ true 0
        0x99).1.current_blevel ≠ 3 := by
  decide

/-- C8 (amended): handling an unrecognized event code emits no
synthesized key events and performs no set; the resulting state is
exactly the one the unconditional preceding reconcile leaves behind
(unchanged when that read fails or is out of range, the
hardware-reported value when it succeeds). -/
theorem unknown_event_no_emission (s : Laptop) (hw : HwRead) (ok : Bool)
    (g : Int) (event : Nat)
    (h1 : event ≠ ACPI_VIDEO_NOTIFY_DEC_BRIGHTNESS)
    (h2 : event ≠ ACPI_VIDEO_NOTIFY_INC_BRIGHTNESS) :
    acpi_driver_notify s hw ok g event =
      ((lcd_get_blevel s hw false).state, []) := by
  unfold acpi_driver_notify
  dsimp only
  rw [if_neg h1, if_neg h2]

/-- Witness for the amended C8 at event 0x99 with a failing reconcile. -/
theorem unknown_event_no_emission_witness :
    ((0x99 : Nat) ≠ ACPI_VIDEO_NOTIFY_DEC_BRIGHTNESS ∧
        (0x99 : Nat) ≠ ACPI_VIDEO_NOTIFY_INC_BRIGHTNESS) ∧
      acpi_driver_notify ⟨amilo_options, 3⟩ ⟨-1, 0, 0⟩ true 0 0x99 =
        ((lcd_get_blevel ⟨amilo_options, 3⟩ ⟨-1, 0, 0⟩ false).state, []) :=
  ⟨⟨by decide, by decide⟩, unknown_event_no_emission ⟨amilo_options, 3⟩
    ⟨-1, 0, 0⟩ true 0 0x99 (by decide) (by decide)⟩

/-- C9: evaluation at the failing inputs.  On buffer "abc" the `%i`
conversion does not match, kernel sscanf returns 0, and the `status < 0`
fallback to the cached level never fires; the indeterminate local level
variable (modelled as 5) is passed to `lcd_set_blevel`, which commits
it: with cached level 3 the write moves the state to 5 and reports
success, instead of reusing the cached level.  The last conjunct shows
the propagation half failing too: on buffer "5" with the firmware call
failing, `lcd_set_blevel` reports failure as the positive value 1, which
the `status < 0` check does not return, so the write reports the full
byte count 10 instead of an error. -/
theorem store_parse_failure_eval :
    sscanf_i "abc" = none ∧
      pf_store_lcd_level ⟨amilo_options, 3⟩ true "abc" 3 5 =
        (⟨amilo_options, 5⟩, 3) ∧
      pf_store_lcd_level ⟨amilo_options, 3⟩ false "5" 10 0 =
        (⟨amilo_options, 5⟩, 10) := by
  decide

/-- C10: a NULL out-pointer is rejected with `AE_ERROR` before any port
I/O and without touching the state or the pointer; with a non-NULL
pointer the cached level is stored through the pointer first, so every
failing return path still leaves the last known cached level there. -/
theorem get_out_param (s : Laptop) (hw : HwRead) :
    lcd_get_blevel s hw true = ⟨s, AE_ERROR, none, 0⟩ ∧
      ((lcd_get_blevel s hw false).ret ≠ AE_OK →
        (lcd_get_blevel s hw false).written = some s.current_blevel) := by
  constructor
  · rfl
  · intro hne
    unfold lcd_get_blevel at hne ⊢
    split_ifs at hne ⊢ <;>
      first
        | rfl
        | (exact absurd rfl hne)
        | simp_all

/-- Witness for C10: a failing port write with cached level 4 leaves 4
in the out-parameter; the NULL path is checked at the same state. -/
theorem get_out_param_witness :
    lcd_get_blevel ⟨amilo_options, 4⟩ ⟨-1, 0, 0⟩ true =
        ⟨⟨amilo_options, 4⟩, AE_ERROR, none, 0⟩ ∧
      (lcd_get_blevel ⟨amilo_options, 4⟩ ⟨-1, 0, 0⟩ false).ret ≠ AE_OK ∧
        (lcd_get_blevel ⟨amilo_options, 4⟩ ⟨-1, 0, 0⟩ false).written =
          some 4 :=
  ⟨(get_out_param ⟨amilo_options, 4⟩ ⟨-1, 0, 0⟩).1, by decide,
    (get_out_param ⟨amilo_options, 4⟩ ⟨-1, 0, 0⟩).2 (by decide)⟩

end Amilo
